import Mathlib

/-!
Verification of the RustDDS core against its specification.

The Rust sources embedded here are:
  src/structure/dds_cache.rs   (DDSCache, TopicCache, DDSHistoryCache)
  src/dds/datasample.rs        (DataSample, SampleInfo and the state enums)
  src/discovery/discovery.rs   (Discovery event loop and its helpers)

Conventions of the embedding:
  * Rust BTreeMap<Timestamp, CacheChange> is represented as an association
    list kept in strictly ascending key order (the BTreeMap invariant).
  * Rust HashMap<String, TopicCache> is represented as an association list
    with unique keys.
  * A Rust panic is represented by returning none from the embedded
    operation.
  * Timestamp and Duration (src/structure/time.rs and duration.rs are not
    part of the sources) are modelled as natural numbers of nanoseconds;
    division of a Duration by an integer constant truncates, as it does in
    Rust.
-/

/-- Modelled from the spec: monotonic Timestamp (src/structure/time.rs is
not among the sources); represented as nanoseconds. -/
abbrev Timestamp := Nat

/-- Modelled from the spec: Duration (src/structure/duration.rs is not among
the sources); represented as nanoseconds, with ZERO = 0. -/
abbrev Duration := Nat

/-- Convenience: a whole number of seconds as a Duration. -/
def secsDuration (n : Nat) : Duration := n * 1000000000

/-- Timestamp.duration_since: elapsed time between two monotonic
timestamps (saturating at zero, as the clock is monotonic). -/
def durationSince (now earlier : Timestamp) : Duration := now - earlier

/-- Modelled from the spec: a 12-byte GuidPrefix, represented as a natural
number (byte-wise equality and ordering). -/
abbrev GuidPfx := Nat

/-- Modelled from the spec: a 4-byte EntityId, represented as its 4-byte
value. -/
abbrev EntityId := Nat

/-- GUID = 12-byte GuidPrefix + 4-byte EntityId (src/structure/guid.rs is
not among the sources; shape taken from the spec data model). -/
structure GUID where
  guidPfx : GuidPfx
  entityId : EntityId
deriving DecidableEq, Repr

/-- ChangeKind from src/structure/cache_change.rs (shape from the spec data
model: kind of one produced sample). -/
inductive ChangeKind where
  | ALIVE
  | NOT_ALIVE_DISPOSED
  | NOT_ALIVE_UNREGISTERED
deriving DecidableEq, Repr

/-- SequenceNumber: per-writer monotonically increasing counter. -/
abbrev SequenceNumber := Int

/-- Opaque serialized payload bytes (DDSData). -/
abbrev DDSData := List Nat

/-- CacheChange from src/structure/cache_change.rs (shape from the spec data
model): kind, originating writer GUID, sequence number, optional payload. -/
structure CacheChange where
  kind : ChangeKind
  writer_guid : GUID
  sequence_number : SequenceNumber
  data_value : Option DDSData
deriving DecidableEq, Repr

/-- TopicKind from src/structure/topic_kind.rs. -/
inductive TopicKind where
  | WithKey
  | NoKey
deriving DecidableEq, Repr

/-- TypeDesc is a type name tag (src/dds/typedesc.rs). -/
abbrev TypeDesc := String

/-- Liveliness QoS policy; the three variants and their lease durations are
exactly the ones matched on in src/discovery/discovery.rs. -/
inductive Liveliness where
  | Automatic (lease_duration : Duration)
  | ManualByParticipant (lease_duration : Duration)
  | ManualByTopic (lease_duration : Duration)
deriving DecidableEq, Repr

/-- Lease duration carried by any Liveliness variant, as extracted by the
match expressions in write_participant_message. -/
def Liveliness.lease_duration : Liveliness → Duration
  | .Automatic d => d
  | .ManualByParticipant d => d
  | .ManualByTopic d => d

/-- Modelled from the spec: QosPolicies (src/dds/qos.rs is not among the
sources). Only the liveliness policy is inspected by the embedded code;
QosPolicyBuilder::new().build() leaves every policy unset. -/
structure QosPolicies where
  liveliness : Option Liveliness
deriving DecidableEq, Repr

/-- Result of QosPolicyBuilder::new().build(): all policies unset. -/
def QosPolicies.default_policies : QosPolicies := { liveliness := none }

/-- DDSHistoryCache (src/structure/dds_cache.rs): a BTreeMap from Timestamp
to CacheChange, represented as an association list in strictly ascending
key order. -/
structure DDSHistoryCache where
  changes : List (Timestamp × CacheChange)
deriving DecidableEq, Repr

/-- DDSHistoryCache::new. -/
def DDSHistoryCache.new : DDSHistoryCache := { changes := [] }

/-- The BTreeMap representation invariant: keys strictly ascending. -/
def DDSHistoryCache.SortedKeys (h : DDSHistoryCache) : Prop :=
  h.changes.Pairwise (fun p q => p.1 < q.1)

/-- Insertion into the sorted association list at the ordered position
(the effect of BTreeMap::insert on a fresh key). -/
def insertChangeSorted :
    List (Timestamp × CacheChange) → Timestamp → CacheChange →
    List (Timestamp × CacheChange)
  | [], t, c => [(t, c)]
  | (k, v) :: rest, t, c =>
    if t < k then (t, c) :: (k, v) :: rest
    else (k, v) :: insertChangeSorted rest t c

/-- DDSHistoryCache::add_change: BTreeMap::insert returns the previous
value for the key; the source panics when that previous value exists
(modelled as none), otherwise the change is stored at key instant. -/
def DDSHistoryCache.add_change (h : DDSHistoryCache) (instant : Timestamp)
    (cache_change : CacheChange) : Option DDSHistoryCache :=
  if instant ∈ h.changes.map Prod.fst then
    none
  else
    some { changes := insertChangeSorted h.changes instant cache_change }

/-- DDSHistoryCache::get_all_changes: BTreeMap iteration in ascending key
order. -/
def DDSHistoryCache.get_all_changes (h : DDSHistoryCache) :
    List (Timestamp × CacheChange) :=
  h.changes

/-- DDSHistoryCache::get_change: point lookup. -/
def DDSHistoryCache.get_change (h : DDSHistoryCache) (instant : Timestamp) :
    Option CacheChange :=
  h.changes.lookup instant

/-- DDSHistoryCache::get_range_of_changes_vec: BTreeMap::range over
(Excluded start_instant, Included end_instant), collected in ascending key
order. -/
def DDSHistoryCache.get_range_of_changes_vec (h : DDSHistoryCache)
    (start_instant end_instant : Timestamp) :
    List (Timestamp × CacheChange) :=
  h.changes.filter (fun p => start_instant < p.1 && p.1 ≤ end_instant)

/-- DDSHistoryCache::change_change_kind: mutates the kind of the change at
the key, panicking (none) when the key is absent. -/
def DDSHistoryCache.change_change_kind (h : DDSHistoryCache)
    (instant : Timestamp) (change_kind : ChangeKind) :
    Option DDSHistoryCache :=
  if instant ∈ h.changes.map Prod.fst then
    some { changes :=
      h.changes.map (fun p =>
        if p.1 = instant then (p.1, { p.2 with kind := change_kind }) else p) }
  else
    none

/-- DDSHistoryCache::remove_change: BTreeMap::remove, returning the removed
value when present together with the updated map. -/
def DDSHistoryCache.remove_change (h : DDSHistoryCache) (instant : Timestamp) :
    DDSHistoryCache × Option CacheChange :=
  ({ changes := h.changes.filter (fun p => p.1 ≠ instant) },
   h.changes.lookup instant)

/-- TopicCache (src/structure/dds_cache.rs). -/
structure TopicCache where
  topic_data_type : TypeDesc
  topic_kind : TopicKind
  topic_qos : QosPolicies
  history_cache : DDSHistoryCache
deriving DecidableEq, Repr

/-- TopicCache::new: fresh QoS from the builder and an empty history. -/
def TopicCache.new (topic_kind : TopicKind) (topic_data_type : TypeDesc) :
    TopicCache :=
  { topic_data_type := topic_data_type
    topic_kind := topic_kind
    topic_qos := QosPolicies.default_policies
    history_cache := DDSHistoryCache.new }

/-- TopicCache::get_change. -/
def TopicCache.get_change (tc : TopicCache) (instant : Timestamp) :
    Option CacheChange :=
  tc.history_cache.get_change instant

/-- TopicCache::add_change. -/
def TopicCache.add_change (tc : TopicCache) (instant : Timestamp)
    (cache_change : CacheChange) : Option TopicCache :=
  (tc.history_cache.add_change instant cache_change).map
    (fun hc => { tc with history_cache := hc })

/-- TopicCache::get_all_changes. -/
def TopicCache.get_all_changes (tc : TopicCache) :
    List (Timestamp × CacheChange) :=
  tc.history_cache.get_all_changes

/-- TopicCache::get_changes_in_range. -/
def TopicCache.get_changes_in_range (tc : TopicCache)
    (start_instant end_instant : Timestamp) :
    List (Timestamp × CacheChange) :=
  tc.history_cache.get_range_of_changes_vec start_instant end_instant

/-- TopicCache::remove_change. -/
def TopicCache.remove_change (tc : TopicCache) (instant : Timestamp) :
    TopicCache × Option CacheChange :=
  let r := tc.history_cache.remove_change instant
  ({ tc with history_cache := r.1 }, r.2)

/-- TopicCache::set_change_to_not_alive_disposed. -/
def TopicCache.set_change_to_not_alive_disposed (tc : TopicCache)
    (instant : Timestamp) : Option TopicCache :=
  (tc.history_cache.change_change_kind instant ChangeKind.NOT_ALIVE_DISPOSED).map
    (fun hc => { tc with history_cache := hc })

/-- DDSCache (src/structure/dds_cache.rs): HashMap from topic name to
TopicCache, represented as an association list with unique keys. -/
structure DDSCache where
  topic_caches : List (String × TopicCache)
deriving DecidableEq, Repr

/-- DDSCache::new. -/
def DDSCache.new : DDSCache := { topic_caches := [] }

/-- HashMap::contains_key on the association list. -/
def DDSCache.contains_topic (c : DDSCache) (topic_name : String) : Bool :=
  (c.topic_caches.lookup topic_name).isSome

/-- Replacement of the value stored under a key, used to embed the
get_mut-then-mutate pattern of the source. -/
def updateTopic (l : List (String × TopicCache)) (topic_name : String)
    (f : TopicCache → TopicCache) : List (String × TopicCache) :=
  l.map (fun p => if p.1 = topic_name then (p.1, f p.2) else p)

/-- DDSCache::add_new_topic: returns false and leaves the map untouched
when the topic name is present, otherwise inserts a fresh TopicCache and
returns true. -/
def DDSCache.add_new_topic (c : DDSCache) (topic_name : String)
    (topic_kind : TopicKind) (topic_data_type : TypeDesc) :
    DDSCache × Bool :=
  if (c.topic_caches.lookup topic_name).isSome then
    (c, false)
  else
    ({ topic_caches :=
        (topic_name, TopicCache.new topic_kind topic_data_type) :: c.topic_caches },
     true)

/-- DDSCache::from_topic_get_change: match on HashMap::get, None when the
topic is absent. -/
def DDSCache.from_topic_get_change (c : DDSCache) (topic_name : String)
    (instant : Timestamp) : Option CacheChange :=
  match c.topic_caches.lookup topic_name with
  | some tc => tc.get_change instant
  | none => none

/-- DDSCache::from_topic_get_all_changes: empty sequence when the topic is
absent. -/
def DDSCache.from_topic_get_all_changes (c : DDSCache) (topic_name : String) :
    List (Timestamp × CacheChange) :=
  match c.topic_caches.lookup topic_name with
  | some tc => tc.get_all_changes
  | none => []

/-- DDSCache::from_topic_get_changes_in_range: delegates to the topic cache
when the topic is present, empty sequence otherwise. -/
def DDSCache.from_topic_get_changes_in_range (c : DDSCache)
    (topic_name : String) (start_instant end_instant : Timestamp) :
    List (Timestamp × CacheChange) :=
  match c.topic_caches.lookup topic_name with
  | some tc => tc.get_changes_in_range start_instant end_instant
  | none => []

/-- DDSCache::to_topic_add_change: panics (none) when the topic is absent;
an inner key collision panic of add_change also yields none. -/
def DDSCache.to_topic_add_change (c : DDSCache) (topic_name : String)
    (instant : Timestamp) (cache_change : CacheChange) : Option DDSCache :=
  match c.topic_caches.lookup topic_name with
  | some tc =>
    (tc.add_change instant cache_change).map
      (fun tc2 => { topic_caches := updateTopic c.topic_caches topic_name (fun _ => tc2) })
  | none => none

/-- DDSCache::from_topic_remove_change: panics (none) when the topic is
absent, otherwise returns the updated cache and the removed change. -/
def DDSCache.from_topic_remove_change (c : DDSCache) (topic_name : String)
    (instant : Timestamp) : Option (DDSCache × Option CacheChange) :=
  match c.topic_caches.lookup topic_name with
  | some tc =>
    let r := tc.remove_change instant
    some ({ topic_caches := updateTopic c.topic_caches topic_name (fun _ => r.1) }, r.2)
  | none => none

/-- DDSCache::from_topic_set_change_to_not_alive_disposed: panics (none)
when the topic is absent; an inner missing-instant panic also yields
none. -/
def DDSCache.from_topic_set_change_to_not_alive_disposed (c : DDSCache)
    (topic_name : String) (instant : Timestamp) : Option DDSCache :=
  match c.topic_caches.lookup topic_name with
  | some tc =>
    (tc.set_change_to_not_alive_disposed instant).map
      (fun tc2 => { topic_caches := updateTopic c.topic_caches topic_name (fun _ => tc2) })
  | none => none

/-- SampleState (src/dds/datasample.rs). -/
inductive SampleState where
  | Read
  | NotRead
deriving DecidableEq, Repr

/-- ViewState (src/dds/datasample.rs). -/
inductive ViewState where
  | New
  | NotNew
deriving DecidableEq, Repr

/-- InstanceState (src/dds/datasample.rs). -/
inductive InstanceState where
  | Alive
  | NotAlive_Disposed
  | NotAlive_NoWriters
deriving DecidableEq, Repr

/-- SampleInfo (src/dds/datasample.rs). -/
structure SampleInfo where
  sample_state : SampleState
  view_state : ViewState
  instance_state : InstanceState
  disposed_generation_count : Int
  no_writers_generation_count : Int
  sample_rank : Int
  generation_rank : Int
  absolute_generation_rank : Int
  source_timestamp : Timestamp
  publication_handle : GUID
deriving DecidableEq, Repr

/-- DataSample (src/dds/datasample.rs): the value field reuses Result, with
ok carrying a data payload (valid_data = true) and error carrying only the
key of the instance. D is the data type, K its key type. -/
structure DataSample (D K : Type) where
  sample_info : SampleInfo
  value : Except K D

/-- DataSample::new (src/dds/datasample.rs). -/
def DataSample.new (D K : Type) (source_timestamp : Timestamp) (payload : D)
    (writer_guid : GUID) : DataSample D K :=
  { sample_info :=
      { sample_state := SampleState.NotRead
        view_state := ViewState.New
        instance_state := InstanceState.Alive
        disposed_generation_count := 0
        no_writers_generation_count := 0
        sample_rank := 0
        generation_rank := 0
        absolute_generation_rank := 0
        source_timestamp := source_timestamp
        publication_handle := writer_guid }
    value := Except.ok payload }

/-- DataSample::new_disposed (src/dds/datasample.rs). -/
def DataSample.new_disposed (D K : Type) (source_timestamp : Timestamp)
    (key : K) (writer_guid : GUID) : DataSample D K :=
  { sample_info :=
      { sample_state := SampleState.NotRead
        view_state := ViewState.New
        instance_state := InstanceState.NotAlive_Disposed
        disposed_generation_count := 0
        no_writers_generation_count := 0
        sample_rank := 0
        generation_rank := 0
        absolute_generation_rank := 0
        source_timestamp := source_timestamp
        publication_handle := writer_guid }
    value := Except.error key }

/-- IDataSample::get_value for DataSample: Some only for an ok value. -/
def DataSample.get_value {D K : Type} (s : DataSample D K) : Option D :=
  match s.value with
  | Except.ok d => some d
  | _ => none

/-- IDataSample::into_value for DataSample: Some only for an ok value. -/
def DataSample.into_value {D K : Type} (s : DataSample D K) : Option D :=
  match s.value with
  | Except.ok d => some d
  | _ => none

/-- Modelled from the spec: the well-known built-in EntityId constants of
src/structure/guid.rs (not among the sources), with the DDS-RTPS values
the spec points to. -/
def ENTITYID_SPDP_BUILTIN_PARTICIPANT_WRITER : EntityId := 0x000100c2

/-- Modelled from the spec: SPDP built-in participant reader EntityId. -/
def ENTITYID_SPDP_BUILTIN_PARTICIPANT_READER : EntityId := 0x000100c7

/-- Modelled from the spec: SEDP built-in topic writer EntityId. -/
def ENTITYID_SEDP_BUILTIN_TOPIC_WRITER : EntityId := 0x000002c2

/-- Modelled from the spec: SEDP built-in topic reader EntityId. -/
def ENTITYID_SEDP_BUILTIN_TOPIC_READER : EntityId := 0x000002c7

/-- Modelled from the spec: SEDP built-in publications writer EntityId. -/
def ENTITYID_SEDP_BUILTIN_PUBLICATIONS_WRITER : EntityId := 0x000003c2

/-- Modelled from the spec: SEDP built-in publications reader EntityId. -/
def ENTITYID_SEDP_BUILTIN_PUBLICATIONS_READER : EntityId := 0x000003c7

/-- Modelled from the spec: SEDP built-in subscriptions writer EntityId. -/
def ENTITYID_SEDP_BUILTIN_SUBSCRIPTIONS_WRITER : EntityId := 0x000004c2

/-- Modelled from the spec: SEDP built-in subscriptions reader EntityId. -/
def ENTITYID_SEDP_BUILTIN_SUBSCRIPTIONS_READER : EntityId := 0x000004c7

/-- Modelled from the spec: P2P built-in participant message writer
EntityId. -/
def ENTITYID_P2P_BUILTIN_PARTICIPANT_MESSAGE_WRITER : EntityId := 0x000200c2

/-- Modelled from the spec: P2P built-in participant message reader
EntityId. -/
def ENTITYID_P2P_BUILTIN_PARTICIPANT_MESSAGE_READER : EntityId := 0x000200c7

/-- RtpsReaderProxy part of DiscoveredReaderData: only the remote reader
GUID is inspected by the embedded discovery code. -/
structure RtpsReaderProxy where
  remote_reader_guid : Option GUID
deriving DecidableEq, Repr

/-- RtpsWriterProxy part of DiscoveredWriterData: only the remote writer
GUID is inspected by the embedded discovery code. -/
structure RtpsWriterProxy where
  remote_writer_guid : Option GUID
deriving DecidableEq, Repr

/-- SubscriptionBuiltinTopicData: topic name of the subscription. -/
structure SubscriptionBuiltinTopicData where
  topic_name : Option String
deriving DecidableEq, Repr

/-- PublicationBuiltinTopicData: topic name and liveliness QoS of the
publication (the fields inspected by the embedded discovery code). -/
structure PublicationBuiltinTopicData where
  topic_name : Option String
  liveliness : Option Liveliness
deriving DecidableEq, Repr

/-- DiscoveredReaderData (src/discovery/data_types/topic_data.rs, shape
from its uses in src/discovery/discovery.rs). -/
structure DiscoveredReaderData where
  reader_proxy : RtpsReaderProxy
  subscription_topic_data : SubscriptionBuiltinTopicData
deriving DecidableEq, Repr

/-- DiscoveredWriterData (src/discovery/data_types/topic_data.rs, shape
from its uses in src/discovery/discovery.rs). -/
structure DiscoveredWriterData where
  writer_proxy : RtpsWriterProxy
  publication_topic_data : PublicationBuiltinTopicData
deriving DecidableEq, Repr

/-- SPDPDiscoveredParticipantData: participant GUID and lease duration (the
fields the embedded discovery code reads and writes). -/
structure SPDPDiscoveredParticipantData where
  participant_guid : GUID
  lease_duration : Duration
deriving DecidableEq, Repr

/-- SPDPDiscoveredParticipantData::from_participant: a record for the given
participant carrying the given lease duration. -/
def SPDPDiscoveredParticipantData.from_participant (participant_guid : GUID)
    (lease : Duration) : SPDPDiscoveredParticipantData :=
  { participant_guid := participant_guid, lease_duration := lease }

/-- ParticipantMessageDataKind (src/discovery/data_types/topic_data.rs,
variants from their uses in src/discovery/discovery.rs). -/
inductive ParticipantMessageDataKind where
  | PARTICIPANT_MESSAGE_DATA_KIND_AUTOMATIC_LIVELINESS_UPDATE
  | PARTICIPANT_MESSAGE_DATA_KIND_MANUAL_LIVELINESS_UPDATE
deriving DecidableEq, Repr

/-- ParticipantMessageData (src/discovery/data_types/topic_data.rs, shape
from its construction in src/discovery/discovery.rs). -/
structure ParticipantMessageData where
  guid : GuidPfx
  kind : ParticipantMessageDataKind
  length : Nat
  data_value : List Nat
deriving DecidableEq, Repr

/-- DiscoveryNotificationType (src/liaison or dds module, variants from
their uses in src/discovery/discovery.rs). -/
inductive DiscoveryNotificationType where
  | WritersInfoUpdated (needs_new_cache_change : Bool)
  | ReadersInfoUpdated
  | TopicsInfoUpdated
  | AssertTopicLiveliness (writer_guid : GUID)
deriving DecidableEq, Repr

/-- DiscoveryCommand (src/discovery/discovery.rs). -/
inductive DiscoveryCommand where
  | STOP_DISCOVERY
  | REMOVE_LOCAL_WRITER (guid : GUID)
  | REMOVE_LOCAL_READER (guid : GUID)
  | REFRESH_LAST_MANUAL_LIVELINESS
  | ASSERT_TOPIC_LIVELINESS (writer_guid : GUID)
deriving DecidableEq, Repr

/-- LivelinessState (src/discovery/discovery.rs). -/
structure LivelinessState where
  last_auto_update : Timestamp
  last_manual_participant_update : Timestamp
deriving DecidableEq, Repr

/-- Modelled from the spec: DiscoveryDB (src/discovery/discovery_db.rs is
not among the sources) as the registry of known participants keyed by
GUID and the tables of local topic readers and writers. -/
structure DiscoveryDB where
  participants : List (GUID × SPDPDiscoveredParticipantData)
  local_topic_readers : List DiscoveredReaderData
  local_topic_writers : List DiscoveredWriterData
deriving DecidableEq, Repr

/-- DiscoveryDB::get_all_local_topic_readers. -/
def DiscoveryDB.get_all_local_topic_readers (db : DiscoveryDB) :
    List DiscoveredReaderData :=
  db.local_topic_readers

/-- DiscoveryDB::get_all_local_topic_writers. -/
def DiscoveryDB.get_all_local_topic_writers (db : DiscoveryDB) :
    List DiscoveredWriterData :=
  db.local_topic_writers

/-- Modelled from the spec: DiscoveryDB::remove_participant drops the
participant stored under the given key. -/
def DiscoveryDB.remove_participant (db : DiscoveryDB) (key : GUID) :
    DiscoveryDB :=
  { db with participants := db.participants.filter (fun p => p.1 ≠ key) }

/-- Modelled from the spec: DiscoveryDB::update_participant enters a new
participant or refreshes an existing one, returning the changed flag that
debounces notifications. -/
def DiscoveryDB.update_participant (db : DiscoveryDB)
    (d : SPDPDiscoveredParticipantData) : DiscoveryDB × Bool :=
  match db.participants.lookup d.participant_guid with
  | some old =>
    ({ db with participants :=
        db.participants.map (fun p =>
          if p.1 = d.participant_guid then (p.1, d) else p) },
     decide (old ≠ d))
  | none =>
    ({ db with participants := (d.participant_guid, d) :: db.participants },
     true)

/-- Modelled from the spec: DiscoveryDB::remove_local_topic_writer. -/
def DiscoveryDB.remove_local_topic_writer (db : DiscoveryDB) (guid : GUID) :
    DiscoveryDB :=
  { db with local_topic_writers :=
      db.local_topic_writers.filter (fun w => w.writer_proxy.remote_writer_guid ≠ some guid) }

/-- Modelled from the spec: DiscoveryDB::remove_local_topic_reader. -/
def DiscoveryDB.remove_local_topic_reader (db : DiscoveryDB) (guid : GUID) :
    DiscoveryDB :=
  { db with local_topic_readers :=
      db.local_topic_readers.filter (fun r => r.reader_proxy.remote_reader_guid ≠ some guid) }

/-- Timer periods of the discovery loop (src/discovery/discovery.rs). -/
def SEND_PARTICIPANT_INFO_PERIOD : Duration := secsDuration 2

/-- CHECK_PARTICIPANT_MESSAGES period of the liveliness timer. -/
def CHECK_PARTICIPANT_MESSAGES : Duration := secsDuration 1

/-- Lease duration computed in the DISCOVERY_SEND_PARTICIPANT_INFO_TOKEN
branch of discovery_event_loop: three times the send period so the lease
does not break if one send fails. -/
def participantInfoLeaseDuration : Duration :=
  SEND_PARTICIPANT_INFO_PERIOD + SEND_PARTICIPANT_INFO_PERIOD +
    SEND_PARTICIPANT_INFO_PERIOD

/-- SPDP record published when the participant-info timer fires
(DISCOVERY_SEND_PARTICIPANT_INFO_TOKEN branch of discovery_event_loop). -/
def participantInfoTimerData (participant_guid : GUID) :
    SPDPDiscoveredParticipantData :=
  SPDPDiscoveredParticipantData.from_participant participant_guid
    participantInfoLeaseDuration

/-- The five built-in reader EntityIds excluded by write_readers_info. -/
def builtinReaderEntityIds : List EntityId :=
  [ENTITYID_SPDP_BUILTIN_PARTICIPANT_READER,
   ENTITYID_SEDP_BUILTIN_SUBSCRIPTIONS_READER,
   ENTITYID_SEDP_BUILTIN_PUBLICATIONS_READER,
   ENTITYID_SEDP_BUILTIN_TOPIC_READER,
   ENTITYID_P2P_BUILTIN_PARTICIPANT_MESSAGE_READER]

/-- The five built-in writer EntityIds excluded by write_writers_info. -/
def builtinWriterEntityIds : List EntityId :=
  [ENTITYID_SPDP_BUILTIN_PARTICIPANT_WRITER,
   ENTITYID_SEDP_BUILTIN_SUBSCRIPTIONS_WRITER,
   ENTITYID_SEDP_BUILTIN_PUBLICATIONS_WRITER,
   ENTITYID_SEDP_BUILTIN_TOPIC_WRITER,
   ENTITYID_P2P_BUILTIN_PARTICIPANT_MESSAGE_WRITER]

/-- Filter predicate of Discovery::write_readers_info: an entry with no
remote reader GUID is skipped, and so is any of the five built-in
readers. -/
def readersInfoPred (p : DiscoveredReaderData) : Bool :=
  match p.reader_proxy.remote_reader_guid with
  | none => false
  | some guid =>
    let eid := guid.entityId
    eid ≠ ENTITYID_SPDP_BUILTIN_PARTICIPANT_READER
      && eid ≠ ENTITYID_SEDP_BUILTIN_SUBSCRIPTIONS_READER
      && eid ≠ ENTITYID_SEDP_BUILTIN_PUBLICATIONS_READER
      && eid ≠ ENTITYID_SEDP_BUILTIN_TOPIC_READER
      && eid ≠ ENTITYID_P2P_BUILTIN_PARTICIPANT_MESSAGE_READER

/-- Discovery::write_readers_info: the sequence of DiscoveredReaderData
samples written on the SEDP subscriptions built-in writer. -/
def write_readers_info (db : DiscoveryDB) : List DiscoveredReaderData :=
  db.get_all_local_topic_readers.filter readersInfoPred

/-- Filter predicate of Discovery::write_writers_info. -/
def writersInfoPred (p : DiscoveredWriterData) : Bool :=
  match p.writer_proxy.remote_writer_guid with
  | none => false
  | some guid =>
    let eid := guid.entityId
    eid ≠ ENTITYID_SPDP_BUILTIN_PARTICIPANT_WRITER
      && eid ≠ ENTITYID_SEDP_BUILTIN_SUBSCRIPTIONS_WRITER
      && eid ≠ ENTITYID_SEDP_BUILTIN_PUBLICATIONS_WRITER
      && eid ≠ ENTITYID_SEDP_BUILTIN_TOPIC_WRITER
      && eid ≠ ENTITYID_P2P_BUILTIN_PARTICIPANT_MESSAGE_WRITER

/-- Discovery::write_writers_info: the sequence of DiscoveredWriterData
samples written on the SEDP publications built-in writer. -/
def write_writers_info (db : DiscoveryDB) : List DiscoveredWriterData :=
  db.get_all_local_topic_writers.filter writersInfoPred

/-- Discriminates the Automatic variant, as the first partition of
write_participant_message does. -/
def Liveliness.isAutomatic : Liveliness → Bool
  | .Automatic _ => true
  | .ManualByParticipant _ => false
  | .ManualByTopic _ => false

/-- Discriminates the ManualByParticipant variant, as the second partition
of write_participant_message does. -/
def Liveliness.isManualByParticipant : Liveliness → Bool
  | .Automatic _ => false
  | .ManualByParticipant _ => true
  | .ManualByTopic _ => false

/-- Minimum of a list of durations: Iterator::min. -/
def minDuration : List Duration → Option Duration
  | [] => none
  | d :: rest =>
    match minDuration rest with
    | none => some d
    | some m => some (Nat.min d m)

/-- Lease durations of the local writers whose liveliness QoS is Automatic
(the automatic partition built by write_participant_message). -/
def automaticLeases (db : DiscoveryDB) : List Duration :=
  ((db.get_all_local_topic_writers.filterMap
      (fun p => p.publication_topic_data.liveliness)).filter
    Liveliness.isAutomatic).map Liveliness.lease_duration

/-- Lease durations of the local writers whose liveliness QoS is
ManualByParticipant (the manual_by_participant partition built by
write_participant_message). -/
def manualByParticipantLeases (db : DiscoveryDB) : List Duration :=
  ((db.get_all_local_topic_writers.filterMap
      (fun p => p.publication_topic_data.liveliness)).filter
    Liveliness.isManualByParticipant).map Liveliness.lease_duration

/-- Discovery::write_participant_message: on each liveliness-timer tick,
partition the local writer liveliness policies, and for each of the two
participant-asserted kinds compare (now − last_update)/3 against the
minimum lease of that kind; when the divided elapsed time exceeds the
minimum lease, write a ParticipantMessageData of that kind (the AUTOMATIC
branch also refreshes last_auto_update). The channel write is modelled as
always succeeding. Returns the messages written and the new state. -/
def write_participant_message (db : DiscoveryDB)
    (participant_guid_pfx : GuidPfx) (liveliness_state : LivelinessState)
    (inow : Timestamp) : List ParticipantMessageData × LivelinessState :=
  let currentAuto := durationSince inow liveliness_state.last_auto_update / 3
  let minAutomatic := minDuration (automaticLeases db)
  let autoPart : List ParticipantMessageData × LivelinessState :=
    match minAutomatic with
    | some mm =>
      if mm < currentAuto then
        ([{ guid := participant_guid_pfx
            kind := ParticipantMessageDataKind.PARTICIPANT_MESSAGE_DATA_KIND_AUTOMATIC_LIVELINESS_UPDATE
            length := 0
            data_value := [] }],
         { liveliness_state with last_auto_update := inow })
      else ([], liveliness_state)
    | none => ([], liveliness_state)
  let currentManual :=
    durationSince inow liveliness_state.last_manual_participant_update / 3
  let minManualParticipant := minDuration (manualByParticipantLeases db)
  let manualMsgs : List ParticipantMessageData :=
    match minManualParticipant with
    | some dur =>
      if dur < currentManual then
        [{ guid := participant_guid_pfx
           kind := ParticipantMessageDataKind.PARTICIPANT_MESSAGE_DATA_KIND_MANUAL_LIVELINESS_UPDATE
           length := 0
           data_value := [] }]
      else []
    | none => []
  (autoPart.1 ++ manualMsgs, autoPart.2)

/-- Discovery::handle_participant_reader: the argument stands for the
outcome of take_next_sample — none for a read error, some none for no
sample, and some (some v) for a sample whose value is either participant
data (ok) or a disposal key (error). Returns the updated DiscoveryDB, the
notifications sent, and the data returned to the caller. -/
def handle_participant_reader (db : DiscoveryDB)
    (sample : Option (Option (Except GUID SPDPDiscoveredParticipantData))) :
    DiscoveryDB × List DiscoveryNotificationType ×
      Option SPDPDiscoveredParticipantData :=
  match sample with
  | none => (db, [], none)
  | some none => (db, [], none)
  | some (some (Except.error key)) =>
    (db.remove_participant key,
     [DiscoveryNotificationType.WritersInfoUpdated false,
      DiscoveryNotificationType.ReadersInfoUpdated],
     none)
  | some (some (Except.ok d)) =>
    let r := db.update_participant d
    if r.2 then
      (r.1,
       [DiscoveryNotificationType.WritersInfoUpdated false,
        DiscoveryNotificationType.ReadersInfoUpdated],
       some d)
    else
      (r.1, [], none)

/-- The built-in writer a dispose call of the discovery command loop is
issued on. -/
inductive BuiltinWriterKind where
  | subscriptions
  | publications
  | participant
deriving DecidableEq, Repr

/-- Observable action of the discovery command loop. -/
inductive LoopAction where
  | dispose (target : BuiltinWriterKind) (guid : GUID)
  | notify (n : DiscoveryNotificationType)
  | refreshManualLiveliness
deriving DecidableEq, Repr

/-- Dispose calls of the STOP_DISCOVERY branch: every local topic reader on
the subscriptions built-in writer (remote_reader_guid.unwrap(), a panic —
none — when absent), then every local topic writer on the publications
built-in writer, and finally the participant GUID on the participant
built-in writer. -/
def stopDisposals (db : DiscoveryDB) (participant_guid : GUID) :
    Option (List LoopAction) := do
  let readerGuids ← db.get_all_local_topic_readers.mapM
    (fun r => r.reader_proxy.remote_reader_guid)
  let writerGuids ← db.get_all_local_topic_writers.mapM
    (fun w => w.writer_proxy.remote_writer_guid)
  pure (readerGuids.map (LoopAction.dispose BuiltinWriterKind.subscriptions)
    ++ writerGuids.map (LoopAction.dispose BuiltinWriterKind.publications)
    ++ [LoopAction.dispose BuiltinWriterKind.participant participant_guid])

/-- The while-let command loop of discovery_event_loop under the
DISCOVERY_COMMAND_TOKEN event, as a trace semantics over the pending
commands: returns the actions performed, the DiscoveryDB state on exit,
and whether the loop returned via STOP_DISCOVERY (after which the
remaining events are not processed). none models a panic. -/
def runCommands (participant_guid subWriterGuid pubWriterGuid : GUID) :
    DiscoveryDB → List DiscoveryCommand →
    Option (List LoopAction × DiscoveryDB × Bool)
  | db, [] => some ([], db, false)
  | db, DiscoveryCommand.STOP_DISCOVERY :: _ =>
    (stopDisposals db participant_guid).map (fun acts => (acts, db, true))
  | db, DiscoveryCommand.REMOVE_LOCAL_WRITER guid :: rest =>
    if guid = pubWriterGuid then
      runCommands participant_guid subWriterGuid pubWriterGuid db rest
    else
      (runCommands participant_guid subWriterGuid pubWriterGuid
          (db.remove_local_topic_writer guid) rest).map
        (fun r => (LoopAction.dispose BuiltinWriterKind.publications guid :: r.1,
                   r.2))
  | db, DiscoveryCommand.REMOVE_LOCAL_READER guid :: rest =>
    if guid = subWriterGuid then
      runCommands participant_guid subWriterGuid pubWriterGuid db rest
    else
      (runCommands participant_guid subWriterGuid pubWriterGuid
          (db.remove_local_topic_reader guid) rest).map
        (fun r => (LoopAction.dispose BuiltinWriterKind.subscriptions guid :: r.1,
                   r.2))
  | db, DiscoveryCommand.REFRESH_LAST_MANUAL_LIVELINESS :: rest =>
    (runCommands participant_guid subWriterGuid pubWriterGuid db rest).map
      (fun r => (LoopAction.refreshManualLiveliness :: r.1, r.2))
  | db, DiscoveryCommand.ASSERT_TOPIC_LIVELINESS writer_guid :: rest =>
    (runCommands participant_guid subWriterGuid pubWriterGuid db rest).map
      (fun r =>
        (LoopAction.notify (DiscoveryNotificationType.AssertTopicLiveliness writer_guid) :: r.1,
         r.2))

/-- Sample cache change used by concrete instantiations. -/
def sampleChange : CacheChange :=
  { kind := ChangeKind.ALIVE
    writer_guid := { guidPfx := 1, entityId := 5 }
    sequence_number := 1
    data_value := some [1, 2] }

/-- Sample history cache with two changes, at timestamps 1 and 3. -/
def sampleHistory : DDSHistoryCache :=
  { changes := [(1, sampleChange), (3, sampleChange)] }

/-- Sample topic cache holding sampleHistory. -/
def sampleTopicCache : TopicCache :=
  { topic_data_type := "ShapeType"
    topic_kind := TopicKind.WithKey
    topic_qos := QosPolicies.default_policies
    history_cache := sampleHistory }

/-- Sample DDSCache with a single topic named Square. -/
def sampleCache : DDSCache :=
  { topic_caches := [("Square", sampleTopicCache)] }

/-- Sample local topic reader record with the given EntityId. -/
def sampleReader (eid : EntityId) : DiscoveredReaderData :=
  { reader_proxy := { remote_reader_guid := some { guidPfx := 7, entityId := eid } }
    subscription_topic_data := { topic_name := some "Square" } }

/-- Sample local topic writer record with the given EntityId and an
Automatic liveliness lease of 9 nanoseconds. -/
def sampleWriter (eid : EntityId) : DiscoveredWriterData :=
  { writer_proxy := { remote_writer_guid := some { guidPfx := 7, entityId := eid } }
    publication_topic_data :=
      { topic_name := some "Square"
        liveliness := some (Liveliness.Automatic 9) } }

/-- Sample participant GUIDs. -/
def sampleGuidA : GUID := { guidPfx := 5, entityId := 0x000001c1 }

/-- Second sample participant GUID. -/
def sampleGuidB : GUID := { guidPfx := 6, entityId := 0x000001c1 }

/-- Sample participant record for sampleGuidB. -/
def sampleParticipantB : SPDPDiscoveredParticipantData :=
  { participant_guid := sampleGuidB, lease_duration := secsDuration 6 }

/-- Sample discovery database: one participant, one user reader, one user
writer. -/
def sampleDb : DiscoveryDB :=
  { participants :=
      [(sampleGuidA, { participant_guid := sampleGuidA, lease_duration := secsDuration 6 })]
    local_topic_readers := [sampleReader 0x1234]
    local_topic_writers := [sampleWriter 0x4321] }

/-- Sample discovery database with two participants and no local
endpoints. -/
def sampleDb2 : DiscoveryDB :=
  { participants :=
      [(sampleGuidA, { participant_guid := sampleGuidA, lease_duration := secsDuration 6 }),
       (sampleGuidB, sampleParticipantB)]
    local_topic_readers := []
    local_topic_writers := [] }

/-- Membership in the sorted insertion: exactly the new pair or an old
element. -/
theorem mem_insertChangeSorted (t : Timestamp) (c : CacheChange) :
    ∀ (l : List (Timestamp × CacheChange)) (p : Timestamp × CacheChange),
      p ∈ insertChangeSorted l t c ↔ p = (t, c) ∨ p ∈ l := by
  intro l
  induction l with
  | nil => intro p; simp [insertChangeSorted]
  | cons kv rest ih =>
    intro p
    obtain ⟨k, v⟩ := kv
    by_cases h : t < k
    · simp [insertChangeSorted, h]
    · simp only [insertChangeSorted, if_neg h, List.mem_cons, ih]
      tauto

/-- Sorted insertion of a fresh key preserves the strict ascending-key
invariant. -/
theorem pairwise_insertChangeSorted (t : Timestamp) (c : CacheChange) :
    ∀ (l : List (Timestamp × CacheChange)),
      t ∉ l.map Prod.fst →
      l.Pairwise (fun p q => p.1 < q.1) →
      (insertChangeSorted l t c).Pairwise (fun p q => p.1 < q.1) := by
  intro l
  induction l with
  | nil => intro _ _; simp [insertChangeSorted]
  | cons kv rest ih =>
    intro hnot hp
    obtain ⟨k, v⟩ := kv
    simp only [List.map_cons, List.mem_cons] at hnot
    push_neg at hnot
    obtain ⟨hne, hnot2⟩ := hnot
    rw [List.pairwise_cons] at hp
    obtain ⟨hk, hrest⟩ := hp
    by_cases h : t < k
    · simp only [insertChangeSorted, if_pos h]
      refine List.Pairwise.cons ?_ (List.Pairwise.cons hk hrest)
      intro q hq
      rcases List.mem_cons.mp hq with rfl | hq2
      · exact h
      · exact lt_trans h (hk q hq2)
    · simp only [insertChangeSorted, if_neg h]
      have htk : k < t := lt_of_le_of_ne (Nat.le_of_not_lt h) (Ne.symm hne)
      refine List.Pairwise.cons ?_ (ih hnot2 hrest)
      intro q hq
      rcases (mem_insertChangeSorted t c rest q).mp hq with rfl | hq2
      · exact htk
      · exact hk q hq2

/-- Lookup of the freshly inserted key returns the inserted change. -/
theorem lookup_insertChangeSorted (t : Timestamp) (c : CacheChange) :
    ∀ (l : List (Timestamp × CacheChange)),
      t ∉ l.map Prod.fst →
      (insertChangeSorted l t c).lookup t = some c := by
  intro l
  induction l with
  | nil => intro _; simp [insertChangeSorted, List.lookup]
  | cons kv rest ih =>
    intro hnot
    obtain ⟨k, v⟩ := kv
    simp only [List.map_cons, List.mem_cons] at hnot
    push_neg at hnot
    obtain ⟨hne, hnot2⟩ := hnot
    by_cases h : t < k
    · simp [insertChangeSorted, h, List.lookup]
    · have hbeq : (t == k) = false := beq_eq_false_iff_ne.mpr hne
      simp [insertChangeSorted, h, List.lookup, hbeq, ih hnot2]

/-- C3: DDSHistoryCache.add_change fails fatally (none) exactly when the
timestamp is already a key; otherwise it stores the change at that key and
every key of the topic history stays distinct (the strict ordering
invariant is preserved). -/
theorem add_change_spec (h : DDSHistoryCache) (instant : Timestamp)
    (cache_change : CacheChange) :
    ((h.add_change instant cache_change = none) ↔
      instant ∈ h.changes.map Prod.fst)
    ∧ (h.SortedKeys →
        ∀ h2, h.add_change instant cache_change = some h2 →
          h2.get_change instant = some cache_change
          ∧ h2.SortedKeys
          ∧ (h2.changes.map Prod.fst).Nodup) := by
  constructor
  · unfold DDSHistoryCache.add_change
    by_cases hm : instant ∈ h.changes.map Prod.fst <;> simp [hm]
  · intro hs h2 heq
    have hnot : instant ∉ h.changes.map Prod.fst := by
      intro hm
      unfold DDSHistoryCache.add_change at heq
      rw [if_pos hm] at heq
      exact Option.noConfusion heq
    unfold DDSHistoryCache.add_change at heq
    rw [if_neg hnot] at heq
    simp only [Option.some.injEq] at heq
    subst heq
    have hpw := pairwise_insertChangeSorted instant cache_change h.changes hnot hs
    refine ⟨?_, hpw, ?_⟩
    · exact lookup_insertChangeSorted instant cache_change h.changes hnot
    · rw [List.Nodup, List.pairwise_map]
      exact hpw.imp (fun hlt => Nat.ne_of_lt hlt)

/-- Witness for add_change_spec: a concrete sorted history with keys 1 and
3; inserting at 2 succeeds and keeps keys distinct, inserting at an
existing key fails. -/
theorem add_change_spec_witness :
    ((sampleHistory.add_change 2 sampleChange = none) ↔
      (2 : Timestamp) ∈ sampleHistory.changes.map Prod.fst)
    ∧ ((DDSHistoryCache.mk
          (insertChangeSorted sampleHistory.changes 2 sampleChange)).get_change 2
          = some sampleChange
        ∧ (DDSHistoryCache.mk
            (insertChangeSorted sampleHistory.changes 2 sampleChange)).SortedKeys
        ∧ ((DDSHistoryCache.mk
            (insertChangeSorted sampleHistory.changes 2 sampleChange)).changes.map
              Prod.fst).Nodup) :=
  ⟨(add_change_spec sampleHistory 2 sampleChange).1,
   (add_change_spec sampleHistory 2 sampleChange).2
     (by unfold DDSHistoryCache.SortedKeys sampleHistory; decide)
     (DDSHistoryCache.mk (insertChangeSorted sampleHistory.changes 2 sampleChange))
     (by unfold DDSHistoryCache.add_change sampleHistory; decide)⟩

/-- C2: for a topic present in the DDSCache,
from_topic_get_changes_in_range returns exactly the changes of that topic
whose timestamp is in (start, end] — start exclusive, end inclusive — in
ascending timestamp order. -/
theorem get_changes_in_range_spec (c : DDSCache) (n : String)
    (tc : TopicCache) (a b : Timestamp)
    (hpres : c.topic_caches.lookup n = some tc)
    (hs : tc.history_cache.SortedKeys) :
    (∀ p, p ∈ c.from_topic_get_changes_in_range n a b ↔
        (p ∈ tc.history_cache.changes ∧ a < p.1 ∧ p.1 ≤ b))
    ∧ (c.from_topic_get_changes_in_range n a b).Pairwise
        (fun p q => p.1 < q.1) := by
  unfold DDSCache.from_topic_get_changes_in_range
  rw [hpres]
  unfold TopicCache.get_changes_in_range DDSHistoryCache.get_range_of_changes_vec
  constructor
  · intro p
    simp [List.mem_filter, and_assoc]
  · exact List.Pairwise.sublist (List.filter_sublist _) hs

/-- Witness for get_changes_in_range_spec on the concrete sample cache:
range (1, 3] over keys 1 and 3. -/
theorem get_changes_in_range_spec_witness :
    (((3 : Timestamp), sampleChange) ∈
        sampleCache.from_topic_get_changes_in_range "Square" 1 3 ↔
      (((3 : Timestamp), sampleChange) ∈ sampleTopicCache.history_cache.changes
        ∧ (1 : Timestamp) < 3 ∧ (3 : Timestamp) ≤ 3))
    ∧ (sampleCache.from_topic_get_changes_in_range "Square" 1 3).Pairwise
        (fun p q => p.1 < q.1) :=
  ⟨(get_changes_in_range_spec sampleCache "Square" sampleTopicCache 1 3
      (by decide) (by unfold DDSHistoryCache.SortedKeys; decide)).1 (3, sampleChange),
   (get_changes_in_range_spec sampleCache "Square" sampleTopicCache 1 3
      (by decide) (by unfold DDSHistoryCache.SortedKeys; decide)).2⟩

/-- C5: add_new_topic on an existing name returns false and leaves the
whole cache — in particular the record stored under that name — unchanged;
on a fresh name it returns true and stores a new TopicCache whose history
is empty, leaving every other name unchanged. -/
theorem add_new_topic_spec (c : DDSCache) (n : String) (k : TopicKind)
    (td : TypeDesc) :
    (∀ tc, c.topic_caches.lookup n = some tc →
        c.add_new_topic n k td = (c, false)
        ∧ (c.add_new_topic n k td).1.topic_caches.lookup n = some tc)
    ∧ (c.topic_caches.lookup n = none →
        (c.add_new_topic n k td).2 = true
        ∧ (c.add_new_topic n k td).1.topic_caches.lookup n
            = some (TopicCache.new k td)
        ∧ (TopicCache.new k td).history_cache.changes = []
        ∧ ∀ m, m ≠ n →
            (c.add_new_topic n k td).1.topic_caches.lookup m
              = c.topic_caches.lookup m) := by
  constructor
  · intro tc h
    unfold DDSCache.add_new_topic
    rw [h]
    simp [h]
  · intro h
    unfold DDSCache.add_new_topic
    rw [h]
    refine ⟨rfl, ?_, rfl, ?_⟩
    · simp [List.lookup]
    · intro m hm
      have hbeq : (m == n) = false := beq_eq_false_iff_ne.mpr hm
      simp [List.lookup, hbeq]

/-- Witness for add_new_topic_spec: re-adding the existing Square topic
leaves the sample cache intact and returns false; adding it to the empty
cache succeeds. -/
theorem add_new_topic_spec_witness :
    (sampleCache.add_new_topic "Square" TopicKind.WithKey "ShapeType"
        = (sampleCache, false)
      ∧ (sampleCache.add_new_topic "Square" TopicKind.WithKey "ShapeType").1.topic_caches.lookup "Square"
          = some sampleTopicCache)
    ∧ ((DDSCache.new.add_new_topic "Square" TopicKind.WithKey "ShapeType").2 = true
      ∧ (DDSCache.new.add_new_topic "Square" TopicKind.WithKey "ShapeType").1.topic_caches.lookup "Square"
          = some (TopicCache.new TopicKind.WithKey "ShapeType")) :=
  ⟨(add_new_topic_spec sampleCache "Square" TopicKind.WithKey "ShapeType").1
      sampleTopicCache (by decide),
   ⟨((add_new_topic_spec DDSCache.new "Square" TopicKind.WithKey "ShapeType").2
        (by decide)).1,
    ((add_new_topic_spec DDSCache.new "Square" TopicKind.WithKey "ShapeType").2
        (by decide)).2.1⟩⟩

/-- C10: on a topic name absent from the DDSCache, the read-side
operations return none or the empty sequence, while the three mutating
operations panic (none). -/
theorem absent_topic_spec (c : DDSCache) (n : String)
    (h : c.topic_caches.lookup n = none) (ts a b : Timestamp)
    (cc : CacheChange) :
    c.from_topic_get_change n ts = none
    ∧ c.from_topic_get_all_changes n = []
    ∧ c.from_topic_get_changes_in_range n a b = []
    ∧ c.to_topic_add_change n ts cc = none
    ∧ c.from_topic_remove_change n ts = none
    ∧ c.from_topic_set_change_to_not_alive_disposed n ts = none := by
  unfold DDSCache.from_topic_get_change DDSCache.from_topic_get_all_changes
    DDSCache.from_topic_get_changes_in_range DDSCache.to_topic_add_change
    DDSCache.from_topic_remove_change
    DDSCache.from_topic_set_change_to_not_alive_disposed
  rw [h]
  exact ⟨rfl, rfl, rfl, rfl, rfl, rfl⟩

/-- Witness for absent_topic_spec: the Circle topic is not in the sample
cache. -/
theorem absent_topic_spec_witness :
    sampleCache.from_topic_get_change "Circle" 1 = none
    ∧ sampleCache.from_topic_get_all_changes "Circle" = []
    ∧ sampleCache.from_topic_get_changes_in_range "Circle" 0 9 = []
    ∧ sampleCache.to_topic_add_change "Circle" 1 sampleChange = none
    ∧ sampleCache.from_topic_remove_change "Circle" 1 = none
    ∧ sampleCache.from_topic_set_change_to_not_alive_disposed "Circle" 1 = none :=
  absent_topic_spec sampleCache "Circle" (by decide) 1 0 9 sampleChange

/-- C9: DataSample.new_disposed yields a sample whose instance state is
NotAlive_Disposed, which carries no data value (its value is the error
case holding only the key, so get_value and into_value are none), and
whose publication handle is the writer GUID. -/
theorem new_disposed_spec (D K : Type) (ts : Timestamp) (k : K) (g : GUID) :
    (DataSample.new_disposed D K ts k g).sample_info.instance_state
        = InstanceState.NotAlive_Disposed
    ∧ (DataSample.new_disposed D K ts k g).value = Except.error k
    ∧ (DataSample.new_disposed D K ts k g).get_value = none
    ∧ (DataSample.new_disposed D K ts k g).into_value = none
    ∧ (DataSample.new_disposed D K ts k g).sample_info.publication_handle = g :=
  ⟨rfl, rfl, rfl, rfl, rfl⟩

/-- C8: the SPDP record published when the participant-info timer fires
carries a lease duration of exactly three times the 2-second send period,
that is 6 seconds. -/
theorem participant_info_lease_spec (g : GUID) :
    (participantInfoTimerData g).lease_duration = secsDuration 6
    ∧ participantInfoLeaseDuration = 3 * SEND_PARTICIPANT_INFO_PERIOD :=
  ⟨rfl, rfl⟩

/-- C4: write_readers_info never publishes a DiscoveredReaderData whose
GUID has one of the five built-in reader EntityIds, and write_writers_info
never publishes a DiscoveredWriterData whose GUID has one of the five
built-in writer EntityIds; every published record carries a GUID. -/
theorem write_info_self_exclusion :
    (∀ (db : DiscoveryDB) (d : DiscoveredReaderData),
      d ∈ write_readers_info db →
        ∃ g, d.reader_proxy.remote_reader_guid = some g
          ∧ g.entityId ∉ builtinReaderEntityIds)
    ∧ (∀ (db : DiscoveryDB) (d : DiscoveredWriterData),
      d ∈ write_writers_info db →
        ∃ g, d.writer_proxy.remote_writer_guid = some g
          ∧ g.entityId ∉ builtinWriterEntityIds) := by
  constructor
  · intro db d hd
    unfold write_readers_info at hd
    have hpred := (List.mem_filter.mp hd).2
    unfold readersInfoPred at hpred
    cases hg : d.reader_proxy.remote_reader_guid with
    | none => rw [hg] at hpred; simp at hpred
    | some g =>
      rw [hg] at hpred
      refine ⟨g, rfl, ?_⟩
      simp only [Bool.and_eq_true, decide_eq_true_eq, ne_eq] at hpred
      simp [builtinReaderEntityIds]
      tauto
  · intro db d hd
    unfold write_writers_info at hd
    have hpred := (List.mem_filter.mp hd).2
    unfold writersInfoPred at hpred
    cases hg : d.writer_proxy.remote_writer_guid with
    | none => rw [hg] at hpred; simp at hpred
    | some g =>
      rw [hg] at hpred
      refine ⟨g, rfl, ?_⟩
      simp only [Bool.and_eq_true, decide_eq_true_eq, ne_eq] at hpred
      simp [builtinWriterEntityIds]
      tauto

/-- Witness for write_info_self_exclusion: the sample database publishes
its user reader and user writer, and their EntityIds are not built-in. -/
theorem write_info_self_exclusion_witness :
    (∃ g, (sampleReader 0x1234).reader_proxy.remote_reader_guid = some g
      ∧ g.entityId ∉ builtinReaderEntityIds)
    ∧ (∃ g, (sampleWriter 0x4321).writer_proxy.remote_writer_guid = some g
      ∧ g.entityId ∉ builtinWriterEntityIds) :=
  ⟨write_info_self_exclusion.1 sampleDb (sampleReader 0x1234) (by decide),
   write_info_self_exclusion.2 sampleDb (sampleWriter 0x4321) (by decide)⟩

/-- C6: on an SPDP participant sample whose value is a disposal key,
handle_participant_reader removes that participant from the DiscoveryDB,
sends exactly the two notifications WritersInfoUpdated{false} and
ReadersInfoUpdated in that order, and returns None; no participant stored
under the disposed key remains. -/
theorem handle_participant_reader_disposal (db : DiscoveryDB) (key : GUID) :
    handle_participant_reader db (some (some (Except.error key)))
      = (db.remove_participant key,
         [DiscoveryNotificationType.WritersInfoUpdated false,
          DiscoveryNotificationType.ReadersInfoUpdated],
         none)
    ∧ ∀ p ∈ (db.remove_participant key).participants, p.1 ≠ key := by
  constructor
  · rfl
  · intro p hp
    unfold DiscoveryDB.remove_participant at hp
    simp only [List.mem_filter, decide_eq_true_eq] at hp
    exact hp.2

/-- Witness for handle_participant_reader_disposal: disposing participant
A of the two-participant sample database keeps participant B, whose key
differs from the disposed one. -/
theorem handle_participant_reader_disposal_witness :
    handle_participant_reader sampleDb2 (some (some (Except.error sampleGuidA)))
      = (sampleDb2.remove_participant sampleGuidA,
         [DiscoveryNotificationType.WritersInfoUpdated false,
          DiscoveryNotificationType.ReadersInfoUpdated],
         none)
    ∧ (sampleGuidB, sampleParticipantB).1 ≠ sampleGuidA :=
  ⟨(handle_participant_reader_disposal sampleDb2 sampleGuidA).1,
   (handle_participant_reader_disposal sampleDb2 sampleGuidA).2
     (sampleGuidB, sampleParticipantB) (by decide)⟩

/-- C7: on STOP_DISCOVERY the command loop disposes every local topic
reader on the subscriptions built-in writer, then every local topic writer
on the publications built-in writer, and finally the participant GUID on
the participant built-in writer, and stops without processing any of the
remaining commands (the result does not depend on rest). -/
theorem stop_discovery_spec (db : DiscoveryDB)
    (participant_guid subWriterGuid pubWriterGuid : GUID)
    (rest : List DiscoveryCommand) (readerGuids writerGuids : List GUID)
    (hr : db.get_all_local_topic_readers.mapM
        (fun r => r.reader_proxy.remote_reader_guid) = some readerGuids)
    (hw : db.get_all_local_topic_writers.mapM
        (fun w => w.writer_proxy.remote_writer_guid) = some writerGuids) :
    runCommands participant_guid subWriterGuid pubWriterGuid db
        (DiscoveryCommand.STOP_DISCOVERY :: rest)
      = some
          (readerGuids.map (LoopAction.dispose BuiltinWriterKind.subscriptions)
            ++ writerGuids.map (LoopAction.dispose BuiltinWriterKind.publications)
            ++ [LoopAction.dispose BuiltinWriterKind.participant participant_guid],
           db, true) := by
  unfold runCommands stopDisposals
  rw [hr, hw]
  rfl

/-- Witness for stop_discovery_spec: stopping on the sample database with
one user reader and one user writer; the trailing refresh command is not
processed. -/
theorem stop_discovery_spec_witness :
    runCommands { guidPfx := 9, entityId := 1 } { guidPfx := 9, entityId := 2 }
        { guidPfx := 9, entityId := 3 } sampleDb
        [DiscoveryCommand.STOP_DISCOVERY,
         DiscoveryCommand.REFRESH_LAST_MANUAL_LIVELINESS]
      = some
          ([{ guidPfx := 7, entityId := 0x1234 }].map
              (LoopAction.dispose BuiltinWriterKind.subscriptions)
            ++ [{ guidPfx := 7, entityId := 0x4321 }].map
              (LoopAction.dispose BuiltinWriterKind.publications)
            ++ [LoopAction.dispose BuiltinWriterKind.participant
                 { guidPfx := 9, entityId := 1 }],
           sampleDb, true) :=
  stop_discovery_spec sampleDb { guidPfx := 9, entityId := 1 }
    { guidPfx := 9, entityId := 2 } { guidPfx := 9, entityId := 3 }
    [DiscoveryCommand.REFRESH_LAST_MANUAL_LIVELINESS]
    [{ guidPfx := 7, entityId := 0x1234 }] [{ guidPfx := 7, entityId := 0x4321 }]
    (by decide) (by decide)

/-- C1 counterexample: with one local writer of Automatic liveliness and
lease 9, last update at 0 and now = 9, the claimed condition
(now − last_auto_update) > min_automatic_lease / 3 holds (9 > 3), yet
write_participant_message emits no AUTOMATIC message, because the source
compares (now − last_auto_update)/3 against the minimum lease
(3 > 9 fails). -/
theorem write_participant_message_claim_refuted :
    minDuration (automaticLeases sampleDb) = some 9
    ∧ durationSince 9 0 > 9 / 3
    ∧ ¬ (∃ m ∈ (write_participant_message sampleDb 5
          { last_auto_update := 0, last_manual_participant_update := 0 } 9).1,
        m.kind = ParticipantMessageDataKind.PARTICIPANT_MESSAGE_DATA_KIND_AUTOMATIC_LIVELINESS_UPDATE) := by
  decide

/-- C1 (amended): write_participant_message emits a ParticipantMessageData
of kind AUTOMATIC if and only if the local writers with Automatic
liveliness are non-empty with minimum lease min_automatic_lease and
(now − last_auto_update)/3 > min_automatic_lease — that is, the elapsed
time exceeds three times the minimum lease, not a third of it; similarly a
MANUAL_LIVELINESS_UPDATE message is emitted if and only if
(now − last_manual_participant_update)/3 exceeds the minimum
ManualByParticipant lease. -/
theorem write_participant_message_pacing (db : DiscoveryDB) (pfx : GuidPfx)
    (ls : LivelinessState) (inow : Timestamp) :
    ((∃ m ∈ (write_participant_message db pfx ls inow).1,
        m.kind = ParticipantMessageDataKind.PARTICIPANT_MESSAGE_DATA_KIND_AUTOMATIC_LIVELINESS_UPDATE)
      ↔ (∃ mm, minDuration (automaticLeases db) = some mm
          ∧ mm < durationSince inow ls.last_auto_update / 3))
    ∧ ((∃ m ∈ (write_participant_message db pfx ls inow).1,
        m.kind = ParticipantMessageDataKind.PARTICIPANT_MESSAGE_DATA_KIND_MANUAL_LIVELINESS_UPDATE)
      ↔ (∃ mm, minDuration (manualByParticipantLeases db) = some mm
          ∧ mm < durationSince inow ls.last_manual_participant_update / 3)) := by
  rcases hA : minDuration (automaticLeases db) with _ | mm <;>
    rcases hM : minDuration (manualByParticipantLeases db) with _ | dm <;>
    simp only [write_participant_message, hA, hM] <;>
    constructor <;>
    (try split_ifs) <;>
    simp_all
